import Mathlib

/-!
# Verification of the telegram-mcp message gateway

Shallow embedding of the single request/response pipeline of the repo:
environment configuration, zod input validation (`SendMessageSchema`),
the outbound Telegram `sendMessage` HTTP call, and the MCP tool-call
handler (`processToolCall`).  The primary embedding follows the
`fetch`-based build (`dist/index.js`); the command construction of the
shell-exec (`curl`) variant is embedded separately.

JavaScript strings are modelled as Lean `String` (sequences of Unicode
scalar values); `jsLength` gives the length that the JavaScript `.length`
property reports, namely the number of UTF-16 code units.
-/

/-- A single quote character, used to build diagnostic strings. -/
def apos : String := String.singleton (Char.ofNat 39)

/-- The number of UTF-16 code units of a string: the JavaScript `.length`
(astral-plane characters count twice). -/
def jsLength (s : String) : Nat :=
  (s.data.map (fun c => if c.toNat < 65536 then 1 else 2)).sum

/-- JavaScript `a || b` on an optional string `a`: the fallback `b` is
used when `a` is `undefined` or the (falsy) empty string. -/
def jsOr (a : Option String) (b : String) : String :=
  match a with
  | none => b
  | some s => if s = "" then b else s

/-- The `parse_mode` enumeration of `SendMessageSchema`. -/
inductive ParseMode where
  | HTML
  | Markdown
  | MarkdownV2
deriving DecidableEq, Repr

/-- The literal each enum member denotes. -/
def ParseMode.toStr : ParseMode → String
  | .HTML => "HTML"
  | .Markdown => "Markdown"
  | .MarkdownV2 => "MarkdownV2"

/-- Recognize one of the three `parse_mode` literals (zod `z.enum`). -/
def parseModeOf (s : String) : Option ParseMode :=
  if s = "HTML" then some .HTML
  else if s = "Markdown" then some .Markdown
  else if s = "MarkdownV2" then some .MarkdownV2
  else none

/-- The arguments mapping handed to the tool: the two keys
`SendMessageSchema` looks at, each possibly absent. -/
structure ToolInput where
  message : Option String
  parse_mode : Option String
deriving DecidableEq, Repr

/-- A validated `send_message` payload (`z.infer<typeof SendMessageSchema>`). -/
structure SendMessageInput where
  message : String
  parse_mode : Option ParseMode
deriving DecidableEq, Repr

/-- The default zod issue message for a missing required field. -/
def requiredMsg : String := "Required"

/-- The custom message of `.min(1, ...)` on `message`. -/
def emptyMsg : String := "Message cannot be empty"

/-- The custom message of `.max(4096, ...)` on `message`. -/
def tooLongMsg : String :=
  "Message exceeds Telegram" ++ apos ++ "s 4096 character limit"

/-- The default zod enum-mismatch message for `parse_mode`. -/
def enumMsg (received : String) : String :=
  "Invalid enum value. Expected " ++ apos ++ "HTML" ++ apos ++ " | " ++ apos ++
    "Markdown" ++ apos ++ " | " ++ apos ++ "MarkdownV2" ++ apos ++
    ", received " ++ apos ++ received ++ apos

/-- zod parsing of the `message` field: a required string with `.min(1)`
and `.max(4096)` checks, both measured (as zod does) on the JavaScript
string length, i.e. UTF-16 code units. All failing checks accumulate. -/
def parseMessageField : Option String → Except (List String) String
  | none => .error [requiredMsg]
  | some s =>
    let issues :=
      (if jsLength s < 1 then [emptyMsg] else []) ++
      (if 4096 < jsLength s then [tooLongMsg] else [])
    if issues.isEmpty then .ok s else .error issues

/-- zod parsing of the optional `parse_mode` enum field. -/
def parseParseModeField : Option String → Except (List String) (Option ParseMode)
  | none => .ok none
  | some s =>
    match parseModeOf s with
    | some pm => .ok (some pm)
    | none => .error [enumMsg s]

namespace SendMessageSchema

/-- `SendMessageSchema.parse`: zod object parsing, visiting `message`
then `parse_mode` and accumulating the issues of both. -/
def parse (input : ToolInput) : Except (List String) SendMessageInput :=
  match parseMessageField input.message, parseParseModeField input.parse_mode with
  | .ok m, .ok p => .ok ⟨m, p⟩
  | .ok _, .error e => .error e
  | .error e, .ok _ => .error e
  | .error e₁, .error e₂ => .error (e₁ ++ e₂)

end SendMessageSchema

/-- The process-wide configuration: `BOT_TOKEN` and `CHAT_ID`. -/
structure Config where
  botToken : String
  chatId : String
deriving DecidableEq, Repr

/-- `TELEGRAM_API_BASE`. -/
def TELEGRAM_API_BASE : String := "https://api.telegram.org"

/-- The startup diagnostic printed when a credential is missing. -/
def configDiagnostic : String :=
  "Error: TELEGRAM_BOT_TOKEN and TELEGRAM_CHAT_ID environment variables are required"

/-- Startup configuration loading: each environment variable is read
with fallback `""` (`process.env.X || ""`); if either resulting string
is empty the process prints the diagnostic and exits with code 1,
otherwise the two strings become the immutable `Config`.
`.error (d, c)` models `console.error(d); process.exit(c)`. -/
def loadConfig (botTokenEnv chatIdEnv : Option String) :
    Except (String × Nat) Config :=
  let botToken := botTokenEnv.getD ""
  let chatId := chatIdEnv.getD ""
  if botToken = "" ∨ chatId = "" then .error (configDiagnostic, 1)
  else .ok ⟨botToken, chatId⟩

/-- The remote `result` object; only `message_id` is read by the code,
`extra` stands for every other (uninterpreted) field. -/
structure TgResult where
  message_id : Option Nat
  extra : List (String × String)
deriving DecidableEq, Repr

/-- The parsed JSON body of a Telegram response: the fields the code
reads (`ok`, `description`, `result`) plus uninterpreted `extra`. -/
structure TgResponse where
  ok : Bool
  description : Option String
  result : Option TgResult
  extra : List (String × String)
deriving DecidableEq, Repr

instance {ε α : Type} [DecidableEq ε] [DecidableEq α] : DecidableEq (Except ε α) :=
  fun a b =>
    match a, b with
    | .ok x, .ok y =>
      if h : x = y then .isTrue (by rw [h]) else
        .isFalse (by intro he; cases he; exact h rfl)
    | .error x, .error y =>
      if h : x = y then .isTrue (by rw [h]) else
        .isFalse (by intro he; cases he; exact h rfl)
    | .ok _, .error _ => .isFalse (by intro he; cases he)
    | .error _, .ok _ => .isFalse (by intro he; cases he)

/-- An HTTP response as seen through `fetch`: `ok` is the 2xx flag,
`status` the numeric status, and `json` the outcome of `.json()`
(`.error m` models the body failing to parse, rejecting with message `m`). -/
structure HttpResp where
  ok : Bool
  status : Nat
  json : Except String TgResponse
deriving DecidableEq, Repr

/-- The outcome of the one outbound `fetch`: either the promise rejects
(connection failure, with the fault message) or a response arrives. -/
inductive FetchOutcome where
  | fail (message : String)
  | resp (r : HttpResp)
deriving DecidableEq, Repr

/-- An outbound HTTP POST: the URL and the JSON body fields in order. -/
structure HttpRequest where
  url : String
  body : List (String × String)
deriving DecidableEq, Repr

/-- The endpoint URL: `TELEGRAM_API_BASE + "/bot" + BOT_TOKEN + "/sendMessage"`. -/
def sendMessageUrl (cfg : Config) : String :=
  TELEGRAM_API_BASE ++ "/bot" ++ cfg.botToken ++ "/sendMessage"

/-- The request body `params`: `chat_id`, `text`, and `parse_mode` only
when a parse mode was given. -/
def sendMessageParams (cfg : Config) (message : String)
    (parse_mode : Option ParseMode) : List (String × String) :=
  [("chat_id", cfg.chatId), ("text", message)] ++
    (match parse_mode with
     | some pm => [("parse_mode", pm.toStr)]
     | none => [])

/-- The single POST `sendTelegramMessage` issues. -/
def sendMessageRequest (cfg : Config) (message : String)
    (parse_mode : Option ParseMode) : HttpRequest :=
  ⟨sendMessageUrl cfg, sendMessageParams cfg message parse_mode⟩

/-- The JavaScript rendering of `result.message_id` inside a template
literal: the decimal form of the number, or `undefined` when absent. -/
def jsShowMessageId : Option Nat → String
  | some n => toString n
  | none => "undefined"

/-- The body of the `try` block of `sendTelegramMessage` (fetch variant):
each `.error m` models a thrown `Error` with message `m`. -/
def sendInner (outcome : FetchOutcome) : Except String String :=
  match outcome with
  | .fail m => .error m
  | .resp r =>
    if r.ok = false then
      match r.json with
      | .error m => .error m
      | .ok errorData =>
        .error ("Telegram API error: " ++
          jsOr errorData.description ("HTTP " ++ toString r.status ++ " error"))
    else
      match r.json with
      | .error m => .error m
      | .ok data =>
        if data.ok = false then
          .error ("Telegram API returned error: " ++
            jsOr data.description "Unknown error")
        else
          match data.result with
          | none =>
            .error ("Cannot read properties of undefined (reading " ++
              apos ++ "message_id" ++ apos ++ ")")
          | some result =>
            .ok ("Message sent successfully to Telegram. Message ID: " ++
              jsShowMessageId result.message_id)

/-- `sendTelegramMessage`: issues the one POST, then interprets the
outcome; any thrown `Error` is re-thrown wrapped as
`Failed to send Telegram message: <message>`.  Returns the list of
requests issued alongside the success string or thrown message. -/
def sendTelegramMessage (cfg : Config) (message : String)
    (parse_mode : Option ParseMode) (outcome : FetchOutcome) :
    List HttpRequest × Except String String :=
  ([sendMessageRequest cfg message parse_mode],
   match sendInner outcome with
   | .ok s => .ok s
   | .error m => .error ("Failed to send Telegram message: " ++ m))

/-- A single text content item of a tool reply. -/
structure TextContent where
  type : String
  text : String
deriving DecidableEq, Repr

/-- `processToolCall`: dispatches on the tool name; for `send_message`
it validates, sends, and catches every failure as a text reply
(`Invalid input: ...` for zod errors, `Error: ...` for thrown errors);
any other name yields `Unknown tool: <name>`.  The first component
records the outbound HTTP requests issued. -/
def processToolCall (cfg : Config) (toolName : String)
    (toolInput : ToolInput) (outcome : FetchOutcome) :
    List HttpRequest × TextContent :=
  if toolName = "send_message" then
    match SendMessageSchema.parse toolInput with
    | .error issues =>
      ([], ⟨"text", "Invalid input: " ++ String.intercalate ", " issues⟩)
    | .ok validInput =>
      match sendTelegramMessage cfg validInput.message validInput.parse_mode outcome with
      | (reqs, .ok s) => (reqs, ⟨"text", s⟩)
      | (reqs, .error m) => (reqs, ⟨"text", "Error: " ++ m⟩)
  else
    ([], ⟨"text", "Unknown tool: " ++ toolName⟩)

/-- The protocol-level reply returned by the `CallToolRequestSchema`
handler: one content item; no `isError` flag is ever set. -/
structure CallToolResult where
  content : List TextContent
  isError : Bool
deriving DecidableEq, Repr

/-- The `CallToolRequestSchema` handler: substitutes `{}` when the
request carries no arguments mapping (`request.params.arguments || {}`)
and wraps the text from `processToolCall` in a successful reply. -/
def handleCallTool (cfg : Config) (name : String) (args : Option ToolInput)
    (outcome : FetchOutcome) : List HttpRequest × CallToolResult :=
  let r := processToolCall cfg name (args.getD ⟨none, none⟩) outcome
  (r.1, ⟨[r.2], false⟩)

/-- Per-character escaping performed by `message.replace(/"/g, char)`
in the shell-exec variant: a double quote becomes backslash-quote,
every other character is untouched. -/
def escChar (c : Char) : List Char :=
  if c = '"' then ['\\', '"'] else [c]

/-- The escaped text placed into the curl command. -/
def escapeQuotes (s : String) : String :=
  ⟨s.data.flatMap escChar⟩

/-- The command string the shell-exec variant hands to `execSync`. -/
def curlCmd (url chatId message : String) (parse_mode : Option ParseMode) :
    String :=
  "curl -s -X POST \"" ++ url ++ "\"" ++
    " -d \"chat_id=" ++ chatId ++ "\"" ++
    " -d \"text=" ++ escapeQuotes message ++ "\"" ++
    (match parse_mode with
     | some pm => " -d \"parse_mode=" ++ pm.toStr ++ "\""
     | none => "")

/-- The smiling-face emoji `U+1F600`, an astral-plane character: one
Unicode code point that JavaScript counts as two UTF-16 units. -/
def astral : Char := Char.ofNat 128512

/-- A message of 2049 astral characters: 2049 Unicode code points but
JavaScript length 4098. -/
def astralMsg : String := ⟨List.replicate 2049 astral⟩

theorem jsLength_cons (c : Char) (l : List Char) :
    jsLength ⟨c :: l⟩ = (if c.toNat < 65536 then 1 else 2) + jsLength ⟨l⟩ := by
  simp [jsLength]

theorem one_le_jsLength (s : String) (h : s ≠ "") : 1 ≤ jsLength s := by
  rcases s with ⟨l⟩
  cases l with
  | nil => exact absurd rfl h
  | cons c cs =>
    rw [jsLength_cons]
    split <;> omega

theorem jsLength_eq_zero_iff (s : String) : jsLength s = 0 ↔ s = "" := by
  constructor
  · intro h
    by_contra hne
    have := one_le_jsLength s hne
    omega
  · intro h
    subst h
    rfl

theorem jsLength_replicate (n : Nat) (c : Char) :
    jsLength ⟨List.replicate n c⟩ = n * (if c.toNat < 65536 then 1 else 2) := by
  simp [jsLength, List.map_replicate, List.sum_replicate, smul_eq_mul]

theorem astral_toNat : astral.toNat = 128512 := by decide

theorem jsLength_astralMsg : jsLength astralMsg = 4098 := by
  rw [astralMsg, jsLength_replicate, astral_toNat]
  norm_num

theorem parseMessageField_ok (s : String) (h1 : 1 ≤ jsLength s)
    (h2 : jsLength s ≤ 4096) : parseMessageField (some s) = .ok s := by
  have hn1 : ¬ jsLength s < 1 := by omega
  have hn2 : ¬ 4096 < jsLength s := by omega
  simp [parseMessageField, hn1, hn2]


/-- Claim C1 counterexample: the claim measures the message in Unicode
code points, but the
schema `.min`/`.max` checks run on the JavaScript string length
(UTF-16 code units): a message of 2049 astral-plane characters has
code-point length 2049 (within 1..4096) and no `parse_mode`, yet
`validate()` rejects it with the 4096-limit reason. -/
theorem C1_counterexample :
    astralMsg.length = 2049 ∧ 1 ≤ astralMsg.length ∧ astralMsg.length ≤ 4096 ∧
    SendMessageSchema.parse ⟨some astralMsg, none⟩ = .error [tooLongMsg] := by
  have hlen : astralMsg.length = 2049 := by
    rw [astralMsg]
    show (List.replicate 2049 astral).length = 2049
    exact List.length_replicate 2049 astral
  have hjs : jsLength astralMsg = 4098 := jsLength_astralMsg
  have h1 : ¬ jsLength astralMsg < 1 := by omega
  have h2 : 4096 < jsLength astralMsg := by omega
  have hm : parseMessageField (some astralMsg) = .error [tooLongMsg] := by
    simp [parseMessageField, h1, h2]
  refine ⟨hlen, by omega, by omega, ?_⟩
  simp [SendMessageSchema.parse, hm, parseParseModeField]

/-- Claim C1 (amended): for every arguments mapping whose `message` has
JavaScript length (UTF-16 code units, the measure zod checks) between 1
and 4096 and whose `parse_mode` is absent or one of the three literals,
`validate()` succeeds and returns the message and parse mode unchanged. -/
theorem C1_validate_accepts (msg : String) (pmIn : Option String)
    (h1 : 1 ≤ jsLength msg) (h2 : jsLength msg ≤ 4096)
    (h3 : pmIn = none ∨ pmIn = some "HTML" ∨ pmIn = some "Markdown" ∨
      pmIn = some "MarkdownV2") :
    ∃ pm, SendMessageSchema.parse ⟨some msg, pmIn⟩ = .ok ⟨msg, pm⟩ ∧
      pm.map ParseMode.toStr = pmIn := by
  have hm := parseMessageField_ok msg h1 h2
  rcases h3 with h | h | h | h <;> subst h
  · exact ⟨none, by simp [SendMessageSchema.parse, hm, parseParseModeField], rfl⟩
  · exact ⟨some .HTML,
      by simp [SendMessageSchema.parse, hm, parseParseModeField, parseModeOf], rfl⟩
  · exact ⟨some .Markdown,
      by simp [SendMessageSchema.parse, hm, parseParseModeField, parseModeOf], rfl⟩
  · exact ⟨some .MarkdownV2,
      by simp [SendMessageSchema.parse, hm, parseParseModeField, parseModeOf], rfl⟩

theorem parseMessageField_error_iff (m : Option String) :
    (∃ e, parseMessageField m = .error e) ↔
      (m = none ∨ ∃ s, m = some s ∧ (s = "" ∨ 4096 < jsLength s)) := by
  cases m with
  | none => simp [parseMessageField]
  | some s =>
    by_cases h0 : jsLength s < 1
    · have hs : s = "" := (jsLength_eq_zero_iff s).mp (by omega)
      subst hs
      exact ⟨fun _ => Or.inr ⟨"", rfl, Or.inl rfl⟩, fun _ => ⟨[emptyMsg], by decide⟩⟩
    · by_cases h4 : 4096 < jsLength s
      · refine ⟨fun _ => Or.inr ⟨s, rfl, Or.inr h4⟩,
          fun _ => ⟨[tooLongMsg], by simp [parseMessageField, h0, h4]⟩⟩
      · have hok : parseMessageField (some s) = .ok s :=
          parseMessageField_ok s (by omega) (by omega)
        have hs : s ≠ "" := by
          intro h
          subst h
          exact h0 (by decide)
        simp [hok, hs, h4]

theorem parseParseModeField_error_iff (p : Option String) :
    (∃ e, parseParseModeField p = .error e) ↔
      ∃ q, p = some q ∧ parseModeOf q = none := by
  cases p with
  | none => simp [parseParseModeField]
  | some q =>
    rcases hq : parseModeOf q with _ | pm <;> simp [parseParseModeField, hq]

theorem parse_error_iff (i : ToolInput) :
    (∃ e, SendMessageSchema.parse i = .error e) ↔
      ((∃ e, parseMessageField i.message = .error e) ∨
       (∃ e, parseParseModeField i.parse_mode = .error e)) := by
  rcases hm : parseMessageField i.message with em | vm <;>
    rcases hp : parseParseModeField i.parse_mode with ep | vp <;>
      simp [SendMessageSchema.parse, hm, hp]

/-- Witness for C1: the amended theorem instantiated at `message = "hi"`,
`parse_mode = "HTML"`. -/
theorem C1_witness :
    1 ≤ jsLength "hi" ∧ jsLength "hi" ≤ 4096 ∧
    ∃ pm, SendMessageSchema.parse ⟨some "hi", some "HTML"⟩ = .ok ⟨"hi", pm⟩ ∧
      pm.map ParseMode.toStr = some "HTML" :=
  ⟨by decide, by decide,
    C1_validate_accepts "hi" (some "HTML") (by decide) (by decide)
      (Or.inr (Or.inl rfl))⟩



/-- Claim C2: `validate()` fails exactly when the message is missing,
empty, or longer than 4096 (JavaScript-length) characters, or
`parse_mode` is present but not one of the three literals; an empty
message yields a reason containing `empty`, an over-long message a
reason containing `4096`, a bad `parse_mode` the enum-mismatch reason;
and the gateway joins several reasons with `, ` into one string. -/
theorem C2_validate_errors :
    (∀ i : ToolInput,
      (∃ e, SendMessageSchema.parse i = .error e) ↔
        (i.message = none ∨
         (∃ s, i.message = some s ∧ (s = "" ∨ 4096 < jsLength s)) ∨
         (∃ q, i.parse_mode = some q ∧ parseModeOf q = none))) ∧
    (∀ p, ∃ l, SendMessageSchema.parse ⟨some "", p⟩ = .error l ∧ emptyMsg ∈ l ∧
      ∃ a b, emptyMsg = a ++ "empty" ++ b) ∧
    (∀ s p, jsLength s = 4097 →
      ∃ l, SendMessageSchema.parse ⟨some s, p⟩ = .error l ∧ tooLongMsg ∈ l ∧
        ∃ a b, tooLongMsg = a ++ "4096" ++ b) ∧
    (∀ m q, parseModeOf q = none →
      ∃ l, SendMessageSchema.parse ⟨m, some q⟩ = .error l ∧ enumMsg q ∈ l) ∧
    (∀ (cfg : Config) (i : ToolInput) (outcome : FetchOutcome) (l : List String),
      SendMessageSchema.parse i = .error l →
      (processToolCall cfg "send_message" i outcome).2 =
        ⟨"text", "Invalid input: " ++ String.intercalate ", " l⟩) := by
  refine ⟨?_, ?_, ?_, ?_, ?_⟩
  · intro i
    rw [parse_error_iff i, parseMessageField_error_iff, parseParseModeField_error_iff]
    exact or_assoc
  · intro p
    have hm : parseMessageField (some "") = .error [emptyMsg] := by decide
    have hsub : ∃ a b, emptyMsg = a ++ "empty" ++ b :=
      ⟨"Message cannot be ", "", by decide⟩
    rcases hp : parseParseModeField p with ep | vp
    · exact ⟨[emptyMsg] ++ ep, by simp [SendMessageSchema.parse, hm, hp], by simp, hsub⟩
    · exact ⟨[emptyMsg], by simp [SendMessageSchema.parse, hm, hp], by simp, hsub⟩
  · intro s p h
    have h0 : ¬ jsLength s < 1 := by omega
    have h4 : 4096 < jsLength s := by omega
    have hm : parseMessageField (some s) = .error [tooLongMsg] := by
      simp [parseMessageField, h0, h4]
    have hsub : ∃ a b, tooLongMsg = a ++ "4096" ++ b :=
      ⟨"Message exceeds Telegram" ++ apos ++ "s ", " character limit", by decide⟩
    rcases hp : parseParseModeField p with ep | vp
    · exact ⟨[tooLongMsg] ++ ep, by simp [SendMessageSchema.parse, hm, hp], by simp, hsub⟩
    · exact ⟨[tooLongMsg], by simp [SendMessageSchema.parse, hm, hp], by simp, hsub⟩
  · intro m q h
    have hp : parseParseModeField (some q) = .error [enumMsg q] := by
      simp [parseParseModeField, h]
    rcases hm : parseMessageField m with em | vm
    · exact ⟨em ++ [enumMsg q], by simp [SendMessageSchema.parse, hm, hp], by simp⟩
    · exact ⟨[enumMsg q], by simp [SendMessageSchema.parse, hm, hp], by simp⟩
  · intro cfg i outcome l h
    simp [processToolCall, h]

/-- Witness for C2: an empty message together with a bogus `parse_mode`
yield the two reasons joined with `, ` in one `Invalid input:` reply. -/
theorem C2_witness :
    (processToolCall ⟨"tok", "chat"⟩ "send_message" ⟨some "", some "Bogus"⟩
      (.fail "x")).2 =
      ⟨"text", "Invalid input: " ++ String.intercalate ", " [emptyMsg, enumMsg "Bogus"]⟩ :=
  C2_validate_errors.2.2.2.2 ⟨"tok", "chat"⟩ ⟨some "", some "Bogus"⟩ (.fail "x")
    [emptyMsg, enumMsg "Bogus"] (by decide)

theorem str_append_assoc (a b c : String) : (a ++ b) ++ c = a ++ (b ++ c) := by
  rcases a with ⟨la⟩
  rcases b with ⟨lb⟩
  rcases c with ⟨lc⟩
  show String.mk ((la ++ lb) ++ lc) = String.mk (la ++ (lb ++ lc))
  rw [List.append_assoc]

/-- Claim C3: every invocation path of `processToolCall` returns a
single text result — no outcome of validation or of the remote call
escapes the boundary — and under a simulated connection failure the
reply is still a well-formed text result wrapping the fault. -/
theorem C3_never_throws (cfg : Config) (name : String) (i : ToolInput)
    (outcome : FetchOutcome) :
    ((processToolCall cfg name i outcome).2).type = "text" ∧
    (∀ m v, outcome = .fail m → SendMessageSchema.parse i = .ok v →
      (processToolCall cfg "send_message" i outcome).2 =
        ⟨"text", "Error: " ++ ("Failed to send Telegram message: " ++ m)⟩) := by
  constructor
  · by_cases hn : name = "send_message"
    · subst hn
      rcases hp : SendMessageSchema.parse i with e | v
      · simp [processToolCall, hp]
      · rcases ho : sendInner outcome with m | s
        · simp [processToolCall, hp, sendTelegramMessage, ho]
        · simp [processToolCall, hp, sendTelegramMessage, ho]
    · simp [processToolCall, hn]
  · intro m v hm hv
    subst hm
    simp [processToolCall, hv, sendTelegramMessage, sendInner]

/-- Witness for C3: a connection failure during a valid `send_message`
invocation still yields a text reply. -/
theorem C3_witness :
    ((processToolCall ⟨"tok", "chat"⟩ "send_message" ⟨some "hi", none⟩
        (.fail "fetch failed")).2).type = "text" ∧
    (processToolCall ⟨"tok", "chat"⟩ "send_message" ⟨some "hi", none⟩
        (.fail "fetch failed")).2 =
      ⟨"text", "Error: " ++ ("Failed to send Telegram message: " ++ "fetch failed")⟩ :=
  ⟨(C3_never_throws ⟨"tok", "chat"⟩ "send_message" ⟨some "hi", none⟩
      (.fail "fetch failed")).1,
   (C3_never_throws ⟨"tok", "chat"⟩ "send_message" ⟨some "hi", none⟩
      (.fail "fetch failed")).2 "fetch failed" ⟨"hi", none⟩ rfl (by decide)⟩

/-- Claim C4: whenever the remote JSON response has `ok = true` and
`result.message_id = m`, `send()` returns exactly
`Message sent successfully to Telegram. Message ID: <m>`; the statement
quantifies over every other field (`description`, `extra`, the HTTP
status), so none of them affects the returned string. -/
theorem C4_success_format (cfg : Config) (msg : String) (pm : Option ParseMode)
    (r : HttpResp) (data : TgResponse) (res : TgResult) (m : Nat)
    (hok : r.ok = true) (hjson : r.json = .ok data) (hdok : data.ok = true)
    (hres : data.result = some res) (hid : res.message_id = some m) :
    (sendTelegramMessage cfg msg pm (.resp r)).2 =
      .ok ("Message sent successfully to Telegram. Message ID: " ++ toString m) := by
  simp [sendTelegramMessage, sendInner, hok, hjson, hdok, hres, hid, jsShowMessageId]

/-- Witness for C4: a response with `message_id = 42` and extra fields
(`description`, a `date` field in `result`) yields exactly the
documented string. -/
theorem C4_witness :
    (sendTelegramMessage ⟨"tok", "chat"⟩ "hi" none
      (.resp ⟨true, 200,
        .ok ⟨true, some "ignored", some ⟨some 42, [("date", "1")]⟩, [("x", "y")]⟩⟩)).2 =
      .ok "Message sent successfully to Telegram. Message ID: 42" := by
  have h := C4_success_format ⟨"tok", "chat"⟩ "hi" none
    ⟨true, 200, .ok ⟨true, some "ignored", some ⟨some 42, [("date", "1")]⟩, [("x", "y")]⟩⟩
    ⟨true, some "ignored", some ⟨some 42, [("date", "1")]⟩, [("x", "y")]⟩
    ⟨some 42, [("date", "1")]⟩ 42 rfl rfl rfl rfl rfl
  have e : "Message sent successfully to Telegram. Message ID: " ++ toString 42 =
      "Message sent successfully to Telegram. Message ID: 42" := by decide
  rw [e] at h
  exact h

/-- Claim C5: on a non-success HTTP status, or a parsed body with
`ok = false`, `send()` fails; the failure message carries the
remote-supplied `description` (via `jsOr`, which returns the description
whenever it is present and non-empty) or else the generic
`HTTP <status> error` / `Unknown error` text, and the gateway renders
any such failure as `Error: Failed to send Telegram message: ...`. -/
theorem C5_remote_error (cfg : Config) (msg : String) (pm : Option ParseMode)
    (r : HttpResp) (data : TgResponse) (hjson : r.json = .ok data) :
    (r.ok = false →
      (sendTelegramMessage cfg msg pm (.resp r)).2 =
        .error ("Failed to send Telegram message: " ++
          ("Telegram API error: " ++
            jsOr data.description ("HTTP " ++ toString r.status ++ " error")))) ∧
    (r.ok = true → data.ok = false →
      (sendTelegramMessage cfg msg pm (.resp r)).2 =
        .error ("Failed to send Telegram message: " ++
          ("Telegram API returned error: " ++ jsOr data.description "Unknown error"))) ∧
    (∀ d fb, data.description = some d → d ≠ "" → jsOr data.description fb = d) ∧
    (∀ (i : ToolInput) (e : String),
      SendMessageSchema.parse i = .ok ⟨msg, pm⟩ →
      (sendTelegramMessage cfg msg pm (.resp r)).2 = .error e →
      (processToolCall cfg "send_message" i (.resp r)).2 = ⟨"text", "Error: " ++ e⟩) := by
  refine ⟨?_, ?_, ?_, ?_⟩
  · intro h
    simp [sendTelegramMessage, sendInner, h, hjson]
  · intro h1 h2
    simp [sendTelegramMessage, sendInner, h1, h2, hjson]
  · intro d fb hd hne
    simp [jsOr, hd, hne]
  · intro i e hp hs
    rcases hX : sendInner (.resp r) with m | s
    · simp [sendTelegramMessage, hX] at hs
      subst hs
      simp [processToolCall, hp, sendTelegramMessage, hX]
    · simp [sendTelegramMessage, hX] at hs

/-- Witness for C5: an `ok = false` body with
`description = "Bad Request: chat not found"` on HTTP 400. -/
theorem C5_witness :
    (sendTelegramMessage ⟨"tok", "chat"⟩ "hi" none
      (.resp ⟨false, 400, .ok ⟨false, some "Bad Request: chat not found", none, []⟩⟩)).2 =
      .error ("Failed to send Telegram message: " ++
        ("Telegram API error: " ++ "Bad Request: chat not found")) := by
  have h := (C5_remote_error ⟨"tok", "chat"⟩ "hi" none
    ⟨false, 400, .ok ⟨false, some "Bad Request: chat not found", none, []⟩⟩
    ⟨false, some "Bad Request: chat not found", none, []⟩ rfl).1 rfl
  have e : jsOr (some "Bad Request: chat not found")
      ("HTTP " ++ toString (400 : Nat) ++ " error") = "Bad Request: chat not found" := by
    decide
  rw [e] at h
  exact h

/-- Claim C6: a validated send issues exactly one POST, to
`…/bot<token>/sendMessage`, whose body carries `chat_id` = configured
chat id, `text` = the message, and a `parse_mode` field present exactly
when a parse mode was given (and then equal to it). -/
theorem C6_request_shape (cfg : Config) (i : ToolInput) (msg : String)
    (pm : Option ParseMode) (outcome : FetchOutcome)
    (h : SendMessageSchema.parse i = .ok ⟨msg, pm⟩) :
    (processToolCall cfg "send_message" i outcome).1 =
      [sendMessageRequest cfg msg pm] ∧
    (sendMessageRequest cfg msg pm).url =
      TELEGRAM_API_BASE ++ "/bot" ++ cfg.botToken ++ "/sendMessage" ∧
    List.lookup "chat_id" (sendMessageRequest cfg msg pm).body = some cfg.chatId ∧
    List.lookup "text" (sendMessageRequest cfg msg pm).body = some msg ∧
    List.lookup "parse_mode" (sendMessageRequest cfg msg pm).body =
      pm.map ParseMode.toStr := by
  refine ⟨?_, rfl, ?_, ?_, ?_⟩
  · rcases hX : sendInner outcome with m | s <;>
      simp [processToolCall, h, sendTelegramMessage, hX]
  · cases pm <;> simp [sendMessageRequest, sendMessageParams, List.lookup]
  · cases pm <;> simp [sendMessageRequest, sendMessageParams, List.lookup]
  · cases pm <;> simp [sendMessageRequest, sendMessageParams, List.lookup]

/-- Witness for C6: concrete valid input with `parse_mode = HTML`. -/
theorem C6_witness :
    (processToolCall ⟨"tok", "chat"⟩ "send_message" ⟨some "hi", some "HTML"⟩
      (.fail "x")).1 = [sendMessageRequest ⟨"tok", "chat"⟩ "hi" (some .HTML)] ∧
    List.lookup "text" (sendMessageRequest ⟨"tok", "chat"⟩ "hi" (some .HTML)).body =
      some "hi" := by
  have h := C6_request_shape ⟨"tok", "chat"⟩ ⟨some "hi", some "HTML"⟩ "hi"
    (some .HTML) (.fail "x") (by decide)
  exact ⟨h.1, h.2.2.2.1⟩

/-- Claim C7: any tool name other than `send_message` yields the plain
text reply `Unknown tool: <name>` with no request issued, no validation
performed, and the protocol-level reply not flagged as an error. -/
theorem C7_unknown_tool (cfg : Config) (name : String) (i : ToolInput)
    (outcome : FetchOutcome) (h : name ≠ "send_message") :
    processToolCall cfg name i outcome = ([], ⟨"text", "Unknown tool: " ++ name⟩) ∧
    handleCallTool cfg name (some i) outcome =
      ([], ⟨[⟨"text", "Unknown tool: " ++ name⟩], false⟩) := by
  have hp : processToolCall cfg name i outcome =
      ([], ⟨"text", "Unknown tool: " ++ name⟩) := by
    simp [processToolCall, h]
  exact ⟨hp, by simp [handleCallTool, hp]⟩

/-- Witness for C7: invoking `delete_message` returns exactly
`Unknown tool: delete_message` and issues nothing. -/
theorem C7_witness :
    processToolCall ⟨"tok", "chat"⟩ "delete_message" ⟨some "hi", none⟩ (.fail "x") =
      ([], ⟨"text", "Unknown tool: delete_message"⟩) := by
  have h := (C7_unknown_tool ⟨"tok", "chat"⟩ "delete_message" ⟨some "hi", none⟩
    (.fail "x") (by decide)).1
  have e : "Unknown tool: " ++ "delete_message" = "Unknown tool: delete_message" := by
    decide
  rw [e] at h
  exact h

/-- Claim C8: if either credential environment variable is absent or
empty, startup emits the diagnostic and exits with the non-zero code 1
(so the server never starts); otherwise the configuration is built with
both strings non-empty. -/
theorem C8_startup (bt ci : Option String) :
    ((bt.getD "" = "" ∨ ci.getD "" = "") →
      loadConfig bt ci = .error (configDiagnostic, 1) ∧ (1 : Nat) ≠ 0) ∧
    (bt.getD "" ≠ "" → ci.getD "" ≠ "" →
      loadConfig bt ci = .ok ⟨bt.getD "", ci.getD ""⟩ ∧
      bt.getD "" ≠ "" ∧ ci.getD "" ≠ "") := by
  constructor
  · intro h
    refine ⟨?_, by omega⟩
    simp only [loadConfig]
    rw [if_pos h]
  · intro h1 h2
    refine ⟨?_, h1, h2⟩
    simp only [loadConfig]
    rw [if_neg (not_or.mpr ⟨h1, h2⟩)]

/-- Witness for C8: a missing `TELEGRAM_CHAT_ID` aborts startup; both
present and non-empty builds the configuration. -/
theorem C8_witness :
    loadConfig (some "tok") none = .error (configDiagnostic, 1) ∧
    loadConfig (some "tok") (some "chat") = .ok ⟨"tok", "chat"⟩ :=
  ⟨((C8_startup (some "tok") none).1 (Or.inr rfl)).1,
   ((C8_startup (some "tok") (some "chat")).2 (by decide) (by decide)).1⟩

/-- Claim C9: a `send_message` invocation with no arguments mapping gets
the empty mapping substituted, validation fails on the missing `message`
field, and the reply is the text `Invalid input: Required` — no request
is issued and nothing escapes the boundary. -/
theorem C9_no_arguments (cfg : Config) (outcome : FetchOutcome) :
    handleCallTool cfg "send_message" none outcome =
      ([], ⟨[⟨"text", "Invalid input: Required"⟩], false⟩) := by
  have h : SendMessageSchema.parse ⟨none, none⟩ = .error [requiredMsg] := by decide
  have e : "Invalid input: " ++ String.intercalate ", " [requiredMsg] =
      "Invalid input: Required" := by decide
  simp [handleCallTool, processToolCall, h, e]

/-- Claim C10: the shell-exec variant builds its curl command by
embedding the message with only double quotes replaced by
backslash-double-quote — `escChar` maps `"` to `\"` and fixes every
other character, so quote-free messages (even ones with `$` or
backticks) are embedded verbatim and no URL-encoding happens — and the
embedded text differs from the message for some valid messages, e.g.
one containing a double quote. -/
theorem C10_shell_escaping :
    (∀ s : String, (∀ c ∈ s.data, c ≠ '"') → escapeQuotes s = s) ∧
    (escChar '"' = ['\\', '"'] ∧ ∀ c : Char, c ≠ '"' → escChar c = [c]) ∧
    (∀ url chatId msg : String, ∀ pm : Option ParseMode, ∃ a b : String,
      curlCmd url chatId msg pm =
        a ++ ("\" -d \"text=" ++ escapeQuotes msg ++ "\"") ++ b) ∧
    (SendMessageSchema.parse ⟨some "say \"hi\"", none⟩ = .ok ⟨"say \"hi\"", none⟩ ∧
      escapeQuotes "say \"hi\"" ≠ "say \"hi\"") := by
  refine ⟨?_, ⟨rfl, ?_⟩, ?_, by decide, by decide⟩
  · intro s h
    rcases s with ⟨l⟩
    show String.mk (l.flatMap escChar) = ⟨l⟩
    congr 1
    induction l with
    | nil => rfl
    | cons c cs ih =>
      have hc : c ≠ '"' := h c (List.mem_cons_self c cs)
      have ih' := ih (fun x hx => h x (List.mem_cons_of_mem c hx))
      simp [List.flatMap_cons, escChar, hc, ih']
  · intro c hc
    simp [escChar, hc]
  · intro url chatId msg pm
    refine ⟨"curl -s -X POST \"" ++ url ++ "\" -d \"chat_id=" ++ chatId,
      (match pm with
       | some p => " -d \"parse_mode=" ++ p.toStr ++ "\""
       | none => ""), ?_⟩
    simp [curlCmd, str_append_assoc]

/-- Witness for C10: a quote-free message is embedded verbatim. -/
theorem C10_witness : escapeQuotes "abc" = "abc" :=
  C10_shell_escaping.1 "abc" (by decide)
